import Mathlib

/-!
Verification development for the fas-rs control core.

The definitions below are a shallow embedding of the repository's Rust
sources:

* `src/fas-rs-fw/src/scheduler/frame.rs` — the per-tick frame processor
  (`Scheduler::process_load`) and the jank classifier (`jank`);
* `src/src/framework/scheduler/looper/utils.rs` — the lifecycle state
  machine (`Looper::retain_topapp`, `disable_fas`, `enable_fas`,
  `buffer_update`);
* `src/src/cpu_common/mod.rs` — the frequency controller
  (`Controller::init_game`, `init_default`, `fas_update_freq`,
  `scale_factor`).

`std::time::Duration` values are represented as total nanoseconds (`Nat`);
`Duration` multiplication by a scalar is exact on total nanoseconds, while
division by a scalar follows the standard library's split computation
(seconds and sub-second nanoseconds divided separately, with the remainder
of the seconds division folded into the nanosecond part), embedded here as
`durDiv`.  Machine integers (`isize`, `u32`) are embedded as `Int` / `Nat`
with explicit saturation where the code saturates; `f64` control factors
are embedded as exact rationals.  Side effects (extension notifications,
per-cluster sysfs writes) are embedded as an explicit event trace.
-/

namespace FasRs

/-- Nanoseconds per second, the base of the `Duration` representation. -/
def NANOS_PER_SEC : Nat := 1000000000

/-- Division of a `Duration` (as total nanoseconds) by a scalar, following
`Duration::checked_div`: the seconds part and the sub-second nanosecond part
are divided separately and the remainder of the seconds division is
converted to nanoseconds and divided, so the result can fall short of the
floor of `d / r` by a few nanoseconds. -/
def durDiv (d r : Nat) : Nat :=
  (d / NANOS_PER_SEC / r) * NANOS_PER_SEC
    + (d % NANOS_PER_SEC) / r
    + (d / NANOS_PER_SEC % r) * NANOS_PER_SEC / r

/-- The per-frame budget `Duration::from_secs(1) / target_fps` computed in
`jank` (frame.rs line 52), as total nanoseconds. -/
def target_frametime (target_fps : Nat) : Nat :=
  durDiv NANOS_PER_SEC target_fps

/-- The per-frame spike threshold `target_frametime * 30 / 29` from
frame.rs line 55: `Duration` scalar multiplication is exact on total
nanoseconds, then `durDiv` divides by 29. -/
def jankThreshold (target_fps : Nat) : Nat :=
  durDiv (target_frametime target_fps * 30) 29

/-- The jank classifier `jank` of frame.rs lines 46-56.  Frame times and
the fps values are `u32`-like naturals; `target_fps - 3` is truncated
subtraction, which agrees with the `u32` subtraction whenever
`target_fps ≥ 3` (below 3 the Rust expression underflows; see
`jankChecked`). -/
def jank (frametime : List Nat) (avg_fps target_fps : Nat) : Bool :=
  frametime.isEmpty
    || decide (avg_fps ≤ target_fps - 3)
    || frametime.any (fun ft => decide (jankThreshold target_fps < ft))

/-- The two commands the frame processor can issue to the performance
controller. -/
inductive PerfCommand where
  | release : PerfCommand
  | limit : PerfCommand
deriving DecidableEq

/-- The per-tick frame processor `Scheduler::process_load` of frame.rs
lines 29-42: the sensor's frame window and fps reading are passed in as
arguments, and the single command issued to the performance controller is
the result. -/
def process_load (frametimes : List Nat) (fps target_fps : Nat) : PerfCommand :=
  if jank frametimes fps target_fps then PerfCommand.release else PerfCommand.limit

/-- Panic-aware evaluation of `jank`: `none` marks an input on which the
Rust expression is not defined without overflow.  `Duration::from_secs(1) /
target_fps` divides by zero when `target_fps = 0`; the `u32` expression
`target_fps - 3` underflows when `target_fps < 3`, but is only reached when
the window is non-empty because `||` short-circuits. -/
def jankChecked (frametime : List Nat) (avg_fps target_fps : Nat) : Option Bool :=
  if target_fps = 0 then
    none
  else if frametime.isEmpty then
    some true
  else if target_fps < 3 then
    none
  else if avg_fps ≤ target_fps - 3 then
    some true
  else
    some (frametime.any (fun ft => decide (jankThreshold target_fps < ft)))

/-- The lifecycle events broadcast to extensions (`ApiV0` / `ApiV1` /
`ApiV2` in the source share this closed set of constructors). -/
inductive ApiEvent where
  | InitCpuFreq : ApiEvent
  | ResetCpuFreq : ApiEvent
  | StartFas : ApiEvent
  | StopFas : ApiEvent
  | LoadFas : Int → String → ApiEvent
  | UnloadFas : Int → String → ApiEvent
deriving DecidableEq

/-- Observable side effects of the control core: an extension trigger on
one of the three protocol versions, a per-cluster frequency write
(`Info::write_freq`), or a per-cluster reset to the system default
(`Info::reset_freq`). -/
inductive Event where
  | extV0 : ApiEvent → Event
  | extV1 : ApiEvent → Event
  | extV2 : ApiEvent → Event
  | writeFreq : Int → Int → ℚ → Event
  | resetFreq : Int → Event
deriving DecidableEq

/-- An event is an extension notification. -/
def Event.isExt : Event → Bool
  | Event.extV0 _ => true
  | Event.extV1 _ => true
  | Event.extV2 _ => true
  | _ => false

/-- An event is a hardware (per-cluster frequency file) write. -/
def Event.isHardware : Event → Bool
  | Event.writeFreq _ _ _ => true
  | Event.resetFreq _ => true
  | _ => false

/-- The source triggers every lifecycle event on `ApiV0`, `ApiV1` and
`ApiV2` in that order (`tigger_extentions` called three times). -/
def triggerAll (e : ApiEvent) : List Event :=
  [Event.extV0 e, Event.extV1 e, Event.extV2 e]

/-- Modelled from the spec: `src/src/cpu_common/weighting.rs` is not under
`src/`.  The weight calculator "maintains a recent estimate of how much
each CPU cluster matters to the monitored process's thread activity ...
with graceful fallback to equal weighting when data is unavailable"; its
accumulated state is modelled as an association list from a cluster's
cpu set to its weight. -/
structure WeightedCalculator where
  data : List (List Nat × ℚ)
deriving DecidableEq

/-- Modelled from the spec: `WeightedCalculator::clear` discards the
accumulated weight-estimator state. -/
def WeightedCalculator.clear (_ : WeightedCalculator) : WeightedCalculator :=
  ⟨[]⟩

/-- Modelled from the spec: `WeightedCalculator::update` refreshes the
estimate from the process's thread/cluster affinity snapshot; with no
introspection data in the model the accumulated state is kept. -/
def WeightedCalculator.update (wc : WeightedCalculator) (_process : Int) :
    WeightedCalculator :=
  wc

/-- Modelled from the spec: the per-cluster weight lookup
(`weights.weight(&policy.cpus)`), `none` when no data is available. -/
def WeightedCalculator.weight (wc : WeightedCalculator) (cpus : List Nat) :
    Option ℚ :=
  wc.data.lookup cpus

/-- One CPU cluster (`cpu_info::Info`): its policy id, member cpus and
supported frequency steps. -/
structure Info where
  policy : Int
  cpus : List Nat
  freqs : List Int
deriving DecidableEq

/-- The frequency controller (`Controller` of cpu_common/mod.rs); the
`FileHandler` performs only I/O and is represented by the event trace. -/
structure Controller where
  max_freq : Int
  min_freq : Int
  policy_freq : Int
  cpu_infos : List Info
  weighted_calculator : WeightedCalculator
deriving DecidableEq

/-- `BASE_FREQ` from cpu_common/mod.rs line 40. -/
def BASE_FREQ : Int := 600000

/-- `Controller::init_game` (cpu_common/mod.rs lines 104-114): set the
requested frequency to the maximum, trigger `InitCpuFreq` on all three
protocol versions, then write the maximum to every cluster with weight
1.0.  The weight-estimator state is left untouched. -/
def Controller.init_game (c : Controller) : Controller × List Event :=
  ({ c with policy_freq := c.max_freq },
    triggerAll ApiEvent.InitCpuFreq
      ++ c.cpu_infos.map (fun cpu => Event.writeFreq cpu.policy c.max_freq 1))

/-- `Controller::init_default` (cpu_common/mod.rs lines 116-127): clear the
weight-estimator state, set the requested frequency to the maximum, trigger
`ResetCpuFreq` on all three protocol versions, then reset every cluster to
its system default. -/
def Controller.init_default (c : Controller) : Controller × List Event :=
  ({ c with
      weighted_calculator := c.weighted_calculator.clear,
      policy_freq := c.max_freq },
    triggerAll ApiEvent.ResetCpuFreq
      ++ c.cpu_infos.map (fun cpu => Event.resetFreq cpu.policy))

/-- Truncation of a rational toward zero, the rounding `as isize` applies
to a finite `f64`. -/
def ratTruncTowardZero (q : ℚ) : Int :=
  q.num / (q.den : Int)

/-- Saturation to the `isize` (64-bit) range, applied both by the
`as isize` cast and by `saturating_add`. -/
def isizeSat (x : Int) : Int :=
  max (-(2 ^ 63)) (min (2 ^ 63 - 1) x)

/-- `isize::saturating_add`. -/
def saturatingAdd (a b : Int) : Int :=
  isizeSat (a + b)

/-- `Ord::clamp` on `isize` (defined when `lo ≤ hi`). -/
def rustClamp (x lo hi : Int) : Int :=
  max lo (min x hi)

/-- `Controller::fas_update_freq` (cpu_common/mod.rs lines 129-151): add
`BASE_FREQ * factor` (truncated to `isize`) to the requested frequency with
saturation, clamp to `[min_freq, max_freq]`, refresh the weights for the
process, and write the clamped frequency to every cluster with that
cluster's weight (falling back to 1.0). -/
def Controller.fas_update_freq (c : Controller) (process : Int) (factor : ℚ) :
    Controller × List Event :=
  let delta := isizeSat (ratTruncTowardZero (BASE_FREQ * factor))
  let pf := rustClamp (saturatingAdd c.policy_freq delta) c.min_freq c.max_freq
  let wc := c.weighted_calculator.update process
  ({ c with policy_freq := pf, weighted_calculator := wc },
    c.cpu_infos.map (fun p => Event.writeFreq p.policy pf ((wc.weight p.cpus).getD 1)))

/-- `Controller::scale_factor` (cpu_common/mod.rs lines 153-163).  The
`frame` and `target` durations are total nanoseconds and the `f64` result
is embedded as an exact rational. -/
def scale_factor (target_fps : Nat) (frame target : Nat) : ℚ :=
  if target < frame then
    (((frame - target : Nat) : ℚ) / ((target : ℚ))) * (120 / (target_fps : ℚ))
  else
    (((target - frame : Nat) : ℚ) / ((target : ℚ))) * (120 / (target_fps : ℚ)) * (-1)

/-- The lifecycle states (`State` in the looper module). -/
inductive State where
  | NotWorking : State
  | Waiting : State
  | Working : State
deriving DecidableEq

/-- The usability state of a frame buffer (`BufferState`). -/
inductive BufferState where
  | Usable : BufferState
  | Unusable : BufferState
deriving DecidableEq

/-- The frame buffer.  Its module (`looper/buffer.rs`) is not under `src/`;
the fields follow the uses in utils.rs (`pid`, `pkg`, `state`,
`push_frametime`) and the spec's data model (one frame window per buffer,
a target fps, a derived usability state). -/
structure Buffer where
  target_fps : Nat
  pid : Int
  pkg : String
  state : BufferState
  frametimes : List Nat
deriving DecidableEq

/-- Modelled from the spec: `Buffer::new` (buffer.rs is not under `src/`)
creates a buffer for the process with an empty window and initial state
`Unusable`. -/
def Buffer.new (target_fps : Nat) (pid : Int) (pkg : String) : Buffer :=
  ⟨target_fps, pid, pkg, BufferState.Unusable, []⟩

/-- Modelled from the spec: the number of accumulated samples after which a
buffer counts as usable ("`Unusable` immediately after creation until
enough samples accumulate, else `Usable`"); the spec gives no literal
value. -/
def USABLE_SAMPLE_COUNT : Nat := 60

/-- Modelled from the spec: `Buffer::push_frametime` (buffer.rs is not
under `src/`) appends a sample to the window and refreshes the derived
usability state; the time-span trimming has no observable in this model. -/
def Buffer.push_frametime (b : Buffer) (ft : Nat) : Buffer :=
  let fts := ft :: b.frametimes
  { b with
      frametimes := fts,
      state :=
        if USABLE_SAMPLE_COUNT ≤ fts.length then BufferState.Usable
        else BufferState.Unusable }

/-- A frame event (`FasData`): the reporting process and the frame's
duration in nanoseconds. -/
structure FasData where
  pid : Int
  frametime : Nat
deriving DecidableEq

/-- `DELAY_TIME` (utils.rs line 25), three seconds in nanoseconds. -/
def DELAY_TIME : Nat := 3 * NANOS_PER_SEC

/-- The orchestrator (`Looper`).  Instants are modelled on an abstract
monotone nanosecond clock: `delay_timer` stores the activation instant and
each operation that reads the clock takes `now` as an argument.  The
external collaborators are snapshots: `topapp_pids` (the foreground set),
`process_names` (the `/proc` name lookup behind `get_process_name`) and
`config` (the package → target-fps lookup).  `cleaner_cleaned` records
whether the cleanup-prevention hooks are applied. -/
structure Looper where
  state : State
  delay_timer : Nat
  buffer : Option Buffer
  topapp_pids : List Int
  process_names : List (Int × String)
  config : List (String × Nat)
  controller : Controller
  cleaner_cleaned : Bool
deriving DecidableEq

/-- `Looper::disable_fas` (utils.rs lines 51-64).  From `Working`: enter
`NotWorking`, undo the cleanup hooks, reset the controller to the system
default (which itself notifies extensions before its hardware writes), then
trigger `StopFas`; from `Waiting`: silently enter `NotWorking`; from
`NotWorking`: no-op. -/
def Looper.disable_fas (l : Looper) : Looper × List Event :=
  match l.state with
  | State.Working =>
      let cd := l.controller.init_default
      ({ l with
          state := State.NotWorking,
          cleaner_cleaned := false,
          controller := cd.1 },
        cd.2 ++ triggerAll ApiEvent.StopFas)
  | State.Waiting => ({ l with state := State.NotWorking }, [])
  | State.NotWorking => (l, [])

/-- `Looper::enable_fas` (utils.rs lines 66-84).  From `NotWorking`: enter
`Waiting`, record the activation instant, trigger `StartFas`; from
`Waiting`: once strictly more than `DELAY_TIME` has elapsed, enter
`Working`, apply the cleanup hooks and reset the controller to maximum;
from `Working`: no-op. -/
def Looper.enable_fas (l : Looper) (now : Nat) : Looper × List Event :=
  match l.state with
  | State.NotWorking =>
      ({ l with state := State.Waiting, delay_timer := now },
        triggerAll ApiEvent.StartFas)
  | State.Waiting =>
      if DELAY_TIME < now - l.delay_timer then
        let cg := l.controller.init_game
        ({ l with
            state := State.Working,
            cleaner_cleaned := true,
            controller := cg.1 },
          cg.2)
      else (l, [])
  | State.Working => (l, [])

/-- `Looper::retain_topapp` (utils.rs lines 28-49): if the active buffer's
process has left the foreground set, trigger `UnloadFas` on all protocol
versions and destroy the buffer; then call `disable_fas` when no buffer
remains and `enable_fas` otherwise. -/
def Looper.retain_topapp (l : Looper) (now : Nat) : Looper × List Event :=
  let step :=
    match l.buffer with
    | some b =>
        if b.pid ∈ l.topapp_pids then (l, ([] : List Event))
        else ({ l with buffer := none }, triggerAll (ApiEvent.UnloadFas b.pid b.pkg))
    | none => (l, [])
  match step.1.buffer with
  | none =>
      let d := step.1.disable_fas
      (d.1, step.2 ++ d.2)
  | some _ =>
      let e := step.1.enable_fas now
      (e.1, step.2 ++ e.2)

/-- `Looper::buffer_update` (utils.rs lines 86-119): events from processes
outside the foreground set or with zero duration are ignored; when a buffer
is installed the sample is pushed to it and its state returned; otherwise a
new buffer is created when the process name resolves and a target fps is
configured, `LoadFas` fires on all protocol versions, the first sample is
pushed, the buffer is installed and `Unusable` is returned. -/
def Looper.buffer_update (l : Looper) (d : FasData) :
    Looper × Option BufferState × List Event :=
  if d.pid ∉ l.topapp_pids ∨ d.frametime = 0 then (l, none, [])
  else
    match l.buffer with
    | some b =>
        let b2 := b.push_frametime d.frametime
        ({ l with buffer := some b2 }, some b2.state, [])
    | none =>
        match l.process_names.lookup d.pid with
        | none => (l, none, [])
        | some pkg =>
            match l.config.lookup pkg with
            | none => (l, none, [])
            | some tfps =>
                let b := (Buffer.new tfps d.pid pkg).push_frametime d.frametime
                ({ l with buffer := some b }, some BufferState.Unusable,
                  triggerAll (ApiEvent.LoadFas d.pid pkg))

/-- C1 counterexample: with an empty frame window (data insufficient) and
target 60 fps the classifier reports jank, and `process_load` issues
`release()` — not `limit()` as the claim's mapping requires. -/
theorem c1_counterexample :
    jank [] 60 60 = true ∧
    process_load [] 60 60 = PerfCommand.release ∧
    process_load [] 60 60 ≠ PerfCommand.limit := by
  decide

/-- C1 (amended): on every call `process_load` issues exactly one of the
two commands, and the mapping is the reverse of the claim's: `release()` is
issued exactly when the jank detector reports jank (or data is
insufficient), and `limit()` exactly when the app is smooth. -/
theorem c1_process_load_mapping (w : List Nat) (fps target_fps : Nat) :
    (process_load w fps target_fps = PerfCommand.release ∨
      process_load w fps target_fps = PerfCommand.limit) ∧
    (process_load w fps target_fps = PerfCommand.release ↔
      jank w fps target_fps = true) ∧
    (process_load w fps target_fps = PerfCommand.limit ↔
      jank w fps target_fps = false) := by
  unfold process_load
  cases h : jank w fps target_fps <;> simp

/-- C2: for `target_fps ≥ 3` (below which the `u32` arithmetic of the
source is not defined, see C9) the jank classifier returns true exactly
when the window is empty, or `avg_fps ≤ target_fps - 3`, or some single
frame exceeds the per-frame budget `(1s / target_fps) * 30 / 29` computed
in `Duration` arithmetic, and false in every other case. -/
theorem c2_jank_characterization (w : List Nat) (avg_fps target_fps : Nat)
    (_h : 3 ≤ target_fps) :
    jank w avg_fps target_fps = true ↔
      (w = [] ∨ avg_fps ≤ target_fps - 3 ∨
        ∃ ft ∈ w, jankThreshold target_fps < ft) := by
  simp only [jank, Bool.or_eq_true, List.isEmpty_iff, decide_eq_true_eq, List.any_eq_true]
  tauto

/-- Witness for C2 at a concrete input. -/
theorem c2_jank_characterization_witness :
    3 ≤ (60 : Nat) ∧
    (jank [1000000, 20000000] 60 60 = true ↔
      (([1000000, 20000000] : List Nat) = [] ∨ (60 : Nat) ≤ 60 - 3 ∨
        ∃ ft ∈ ([1000000, 20000000] : List Nat), jankThreshold 60 < ft)) :=
  ⟨by decide, c2_jank_characterization [1000000, 20000000] 60 60 (by decide)⟩

/-- C8 counterexample: at the exact boundary `avg_fps = target_fps - 3`
(57 vs 60) with a non-empty window whose only frame is well within the
per-frame budget, the classifier returns true — the claim requires false
there. -/
theorem c8_counterexample :
    ([1000000] : List Nat) ≠ [] ∧
    (∀ ft ∈ ([1000000] : List Nat), ft ≤ jankThreshold 60) ∧
    (57 : Nat) = 60 - 3 ∧
    jank [1000000] 57 60 = true := by
  decide

/-- C8 (amended): for `target_fps ≥ 3` (below which the `u32` arithmetic
of the source is not defined, see C9), for every non-empty window whose
frames are all within the per-frame budget, the classifier returns false
exactly when the aggregate fps is strictly greater than `target_fps - 3`;
at the boundary `avg_fps ≤ target_fps - 3` (equality included) it returns
true. -/
theorem c8_smooth_requires_strict (w : List Nat) (avg_fps target_fps : Nat)
    (_h : 3 ≤ target_fps) :
    (w ≠ [] → (∀ ft ∈ w, ft ≤ jankThreshold target_fps) →
      target_fps - 3 < avg_fps → jank w avg_fps target_fps = false) ∧
    (avg_fps ≤ target_fps - 3 → jank w avg_fps target_fps = true) := by
  constructor
  · intro h1 h2 h3
    have he : w.isEmpty = false := by
      cases w with
      | nil => exact absurd rfl h1
      | cons a t => rfl
    simp only [jank, he, Bool.false_or, Bool.or_eq_false_iff, decide_eq_false_iff_not,
      Nat.not_le, List.any_eq_false, Nat.not_lt]
    exact ⟨h3, fun x hx => by
      simp only [decide_eq_true_eq, Nat.not_lt]
      exact h2 x hx⟩
  · intro h
    simp [jank, h]

/-- Witness for C8 at concrete inputs: a smooth window strictly above the
band, and the boundary case. -/
theorem c8_smooth_requires_strict_witness :
    jank [1000000] 58 60 = false ∧ jank [1000000] 57 60 = true :=
  ⟨(c8_smooth_requires_strict [1000000] 58 60 (by decide)).1
      (by decide) (by decide) (by decide),
   (c8_smooth_requires_strict [1000000] 57 60 (by decide)).2 (by decide)⟩

/-- C9: the classifier's evaluation is panic-free exactly on the domain the
claim gives — `target_fps = 0` divides one second by zero, `target_fps < 3`
underflows `target_fps - 3` whenever the window is non-empty (short-circuit
evaluation skips the subtraction on an empty window), and for every
`target_fps ≥ 3` evaluation succeeds and agrees with `jank`. -/
theorem c9_jank_totality (w : List Nat) (avg_fps target_fps : Nat) :
    (target_fps = 0 → jankChecked w avg_fps target_fps = none) ∧
    (target_fps ≠ 0 → target_fps < 3 → w ≠ [] →
      jankChecked w avg_fps target_fps = none) ∧
    (3 ≤ target_fps →
      jankChecked w avg_fps target_fps = some (jank w avg_fps target_fps)) := by
  refine ⟨fun h0 => by simp [jankChecked, h0], fun h0 h3 hw => ?_, fun h3 => ?_⟩
  · simp [jankChecked, h0, h3, List.isEmpty_iff, hw]
  · have h0 : target_fps ≠ 0 := by omega
    have hlt : ¬ target_fps < 3 := by omega
    by_cases hw : w.isEmpty
    · have : w = [] := List.isEmpty_iff.mp hw
      simp [jankChecked, jank, h0, this]
    · by_cases hb : avg_fps ≤ target_fps - 3
      · simp [jankChecked, jank, h0, hw, hlt, hb]
      · simp [jankChecked, jank, h0, hw, hlt, hb]

/-- Witness for C9 at concrete inputs: division by zero, underflow, and a
well-defined evaluation. -/
theorem c9_jank_totality_witness :
    jankChecked [5] 10 0 = none ∧
    jankChecked [5] 10 2 = none ∧
    jankChecked [5] 10 60 = some (jank [5] 10 60) :=
  ⟨(c9_jank_totality [5] 10 0).1 rfl,
   (c9_jank_totality [5] 10 2).2.1 (by decide) (by decide) (by decide),
   (c9_jank_totality [5] 10 60).2.2 (by decide)⟩

/-- C7: `scale_factor` is an odd function of `frame - target` — at
`frame = target + d` it is the exact negation of its value at
`frame = target - d` — it is positive when the frame runs over target,
negative when under, and its magnitude is
`|frame - target| / target * (120 / target_fps)`. -/
theorem c7_scale_factor_odd (target_fps target d frame : Nat)
    (h1 : 0 < target_fps) (h2 : 0 < target) (h3 : d ≤ target) :
    scale_factor target_fps (target + d) target
        = -scale_factor target_fps (target - d) target ∧
    (target < frame → 0 < scale_factor target_fps frame target) ∧
    (frame < target → scale_factor target_fps frame target < 0) ∧
    |scale_factor target_fps frame target|
        = |(frame : ℚ) - (target : ℚ)| / (target : ℚ) * (120 / (target_fps : ℚ)) := by
  have htq : (0 : ℚ) < (target : ℚ) := by exact_mod_cast h2
  have hfq : (0 : ℚ) < (target_fps : ℚ) := by exact_mod_cast h1
  have hk : (0 : ℚ) < 120 / (target_fps : ℚ) := by positivity
  refine ⟨?_, ?_, ?_, ?_⟩
  · rcases Nat.eq_zero_or_pos d with hd | hd
    · subst hd
      simp [scale_factor]
    · have e1 : target + d - target = d := by omega
      have e2 : target - (target - d) = d := by omega
      rw [scale_factor, scale_factor, if_pos (by omega), if_neg (by omega), e1, e2]
      ring
  · intro hlt
    rw [scale_factor, if_pos hlt]
    have : (0 : ℚ) < ((frame - target : Nat) : ℚ) := by
      exact_mod_cast Nat.sub_pos_of_lt hlt
    positivity
  · intro hlt
    rw [scale_factor, if_neg (by omega)]
    have hp : (0 : ℚ) < ((target - frame : Nat) : ℚ) := by
      exact_mod_cast Nat.sub_pos_of_lt hlt
    have : (0 : ℚ) < ((target - frame : Nat) : ℚ) / (target : ℚ) * (120 / (target_fps : ℚ)) := by
      positivity
    linarith
  · rcases lt_or_ge target frame with hlt | hge
    · have htle : (target : ℚ) ≤ (frame : ℚ) := by exact_mod_cast le_of_lt hlt
      have hc : ((frame - target : Nat) : ℚ) = (frame : ℚ) - (target : ℚ) := by
        push_cast [Nat.cast_sub (le_of_lt hlt)]
        ring
      rw [scale_factor, if_pos hlt, hc,
        abs_of_nonneg (mul_nonneg (div_nonneg (sub_nonneg.mpr htle) htq.le) hk.le),
        abs_of_nonneg (sub_nonneg.mpr htle)]
    · have hfle : (frame : ℚ) ≤ (target : ℚ) := by exact_mod_cast hge
      have hc : ((target - frame : Nat) : ℚ) = (target : ℚ) - (frame : ℚ) := by
        push_cast [Nat.cast_sub hge]
        ring
      have habs : |(frame : ℚ) - (target : ℚ)| = (target : ℚ) - (frame : ℚ) := by
        rw [abs_sub_comm]
        exact abs_of_nonneg (sub_nonneg.mpr hfle)
      have hnn : (0 : ℚ) ≤ ((target : ℚ) - (frame : ℚ)) / (target : ℚ) * (120 / (target_fps : ℚ)) :=
        mul_nonneg (div_nonneg (sub_nonneg.mpr hfle) htq.le) hk.le
      rw [scale_factor, if_neg (by omega), hc, habs]
      rw [show ((target : ℚ) - (frame : ℚ)) / (target : ℚ) * (120 / (target_fps : ℚ)) * (-1)
            = -(((target : ℚ) - (frame : ℚ)) / (target : ℚ) * (120 / (target_fps : ℚ))) by ring,
        abs_neg, abs_of_nonneg hnn]

/-- Witness for C7 at a concrete input (60 fps target, 16.666666 ms target
frame, 2 ms deviation, a 20 ms frame). -/
theorem c7_scale_factor_odd_witness :
    0 < (60 : Nat) ∧ 0 < (16666666 : Nat) ∧ (2000000 : Nat) ≤ 16666666 ∧
    (scale_factor 60 (16666666 + 2000000) 16666666
        = -scale_factor 60 (16666666 - 2000000) 16666666 ∧
      ((16666666 : Nat) < 20000000 → 0 < scale_factor 60 20000000 16666666) ∧
      ((20000000 : Nat) < 16666666 → scale_factor 60 20000000 16666666 < 0) ∧
      |scale_factor 60 20000000 16666666|
          = |(20000000 : ℚ) - (16666666 : ℚ)| / (16666666 : ℚ) * (120 / (60 : ℚ))) :=
  ⟨by decide, by decide, by decide,
    c7_scale_factor_odd 60 16666666 2000000 20000000 (by decide) (by decide) (by decide)⟩

/-- A concrete controller used to instantiate the controller theorems: two
clusters, the usual little/big frequency tables, a non-empty accumulated
weight state. -/
def sampleController : Controller :=
  { max_freq := 2800000,
    min_freq := 300000,
    policy_freq := 1400000,
    cpu_infos :=
      [{ policy := 0, cpus := [0, 1, 2, 3], freqs := [300000, 1400000, 1800000] },
       { policy := 4, cpus := [4, 5, 6, 7], freqs := [500000, 2000000, 2800000] }],
    weighted_calculator := ⟨[([0, 1, 2, 3], (3 : ℚ) / 2)]⟩ }

/-- C5 counterexample: `init_game` leaves a non-empty accumulated
weight-estimator state untouched — the claim requires both reset
operations to clear it. -/
theorem c5_counterexample :
    sampleController.weighted_calculator.data ≠ [] ∧
    (sampleController.init_game).1.weighted_calculator.data
        = sampleController.weighted_calculator.data ∧
    (sampleController.init_game).1.weighted_calculator.data ≠ [] := by
  refine ⟨by decide, rfl, by decide⟩

/-- C5 (amended): `init_default` clears the accumulated weight-estimator
state while `init_game` leaves it unchanged; each of the two reset
operations notifies extensions of its lifecycle milestone (on all three
protocol versions) before performing any hardware write. -/
theorem c5_reset_notification_order (c : Controller) :
    (c.init_default).1.weighted_calculator.data = [] ∧
    (c.init_game).1.weighted_calculator = c.weighted_calculator ∧
    (∃ writes, (c.init_game).2 = triggerAll ApiEvent.InitCpuFreq ++ writes ∧
      ∀ e ∈ writes, e.isHardware = true) ∧
    (∃ writes, (c.init_default).2 = triggerAll ApiEvent.ResetCpuFreq ++ writes ∧
      ∀ e ∈ writes, e.isHardware = true) := by
  refine ⟨rfl, rfl, ⟨_, rfl, ?_⟩, ⟨_, rfl, ?_⟩⟩
  · intro e he
    rcases List.mem_map.mp he with ⟨cpu, _, rfl⟩
    rfl
  · intro e he
    rcases List.mem_map.mp he with ⟨cpu, _, rfl⟩
    rfl

/-- Witness for C5 (amended) at the concrete controller. -/
theorem c5_reset_notification_order_witness :
    (sampleController.init_default).1.weighted_calculator.data = [] ∧
    (sampleController.init_game).1.weighted_calculator
        = sampleController.weighted_calculator ∧
    (∃ writes, (sampleController.init_game).2
        = triggerAll ApiEvent.InitCpuFreq ++ writes ∧
      ∀ e ∈ writes, e.isHardware = true) ∧
    (∃ writes, (sampleController.init_default).2
        = triggerAll ApiEvent.ResetCpuFreq ++ writes ∧
      ∀ e ∈ writes, e.isHardware = true) :=
  c5_reset_notification_order sampleController

/-- C6: for every process id and every control-signal factor, however
large or negative, the requested frequency after `fas_update_freq` lies
within `[min_freq, max_freq]` (given the construction invariant
`min_freq ≤ max_freq`), and it equals the old frequency plus the truncated
`BASE_FREQ * factor` delta, saturated and clamped to those bounds. -/
theorem c6_fas_update_freq_clamped (c : Controller) (process : Int) (factor : ℚ)
    (h : c.min_freq ≤ c.max_freq) :
    c.min_freq ≤ (c.fas_update_freq process factor).1.policy_freq ∧
    (c.fas_update_freq process factor).1.policy_freq ≤ c.max_freq ∧
    (c.fas_update_freq process factor).1.policy_freq
        = rustClamp
            (saturatingAdd c.policy_freq
              (isizeSat (ratTruncTowardZero (BASE_FREQ * factor))))
            c.min_freq c.max_freq := by
  refine ⟨?_, ?_, rfl⟩
  · simp only [Controller.fas_update_freq, rustClamp]
    exact le_max_left _ _
  · simp only [Controller.fas_update_freq, rustClamp]
    exact max_le h (min_le_right _ _)

/-- Witness for C6 at the concrete controller with an extreme factor. -/
theorem c6_fas_update_freq_clamped_witness :
    sampleController.min_freq ≤ sampleController.max_freq ∧
    sampleController.min_freq
        ≤ (sampleController.fas_update_freq 1234 (10 ^ 30)).1.policy_freq ∧
    (sampleController.fas_update_freq 1234 (10 ^ 30)).1.policy_freq
        ≤ sampleController.max_freq :=
  ⟨by decide,
    (c6_fas_update_freq_clamped sampleController 1234 (10 ^ 30) (by decide)).1,
    (c6_fas_update_freq_clamped sampleController 1234 (10 ^ 30) (by decide)).2.1⟩

/-- Helper: `disable_fas` always lands in `NotWorking`. -/
theorem disable_fas_state_eq (l : Looper) :
    (l.disable_fas).1.state = State.NotWorking := by
  cases h : l.state <;> simp [Looper.disable_fas, h]

/-- Helper: `disable_fas` does not touch the buffer. -/
theorem disable_fas_buffer_eq (l : Looper) :
    (l.disable_fas).1.buffer = l.buffer := by
  cases h : l.state <;> simp [Looper.disable_fas, h]

/-- Helper: `enable_fas` always lands in `Waiting` or `Working`. -/
theorem enable_fas_state_cases (l : Looper) (now : Nat) :
    (l.enable_fas now).1.state = State.Waiting ∨
    (l.enable_fas now).1.state = State.Working := by
  cases h : l.state
  · left
    simp [Looper.enable_fas, h]
  · by_cases hd : DELAY_TIME < now - l.delay_timer
    · right
      simp [Looper.enable_fas, h, hd]
    · left
      simp [Looper.enable_fas, h, hd]
  · right
    simp [Looper.enable_fas, h]

/-- Helper: `enable_fas` does not touch the buffer. -/
theorem enable_fas_buffer_eq (l : Looper) (now : Nat) :
    (l.enable_fas now).1.buffer = l.buffer := by
  cases h : l.state
  · simp [Looper.enable_fas, h]
  · by_cases hd : DELAY_TIME < now - l.delay_timer <;>
      simp [Looper.enable_fas, h, hd]
  · simp [Looper.enable_fas, h]

/-- C3: from `NotWorking`, one `enable_fas` call moves to `Waiting`,
records the activation instant, fires the start notifications on all three
protocol versions and leaves the frequency controller untouched; a second
call while `Waiting` moves to `Working` and resets the controller to its
maximum exactly when the elapsed time strictly exceeds the 3-second
settling delay, and otherwise changes nothing. -/
theorem c3_enable_fas_settling (l : Looper) (t1 t2 : Nat)
    (h : l.state = State.NotWorking) :
    (l.enable_fas t1).1.state = State.Waiting ∧
    (l.enable_fas t1).1.delay_timer = t1 ∧
    (l.enable_fas t1).2 = triggerAll ApiEvent.StartFas ∧
    (l.enable_fas t1).1.controller = l.controller ∧
    (DELAY_TIME < t2 - t1 →
      ((l.enable_fas t1).1.enable_fas t2).1.state = State.Working ∧
      ((l.enable_fas t1).1.enable_fas t2).1.controller.policy_freq
          = l.controller.max_freq) ∧
    (¬ DELAY_TIME < t2 - t1 →
      ((l.enable_fas t1).1.enable_fas t2).1.state = State.Waiting ∧
      ((l.enable_fas t1).1.enable_fas t2).1.controller = l.controller) := by
  have e1 : l.enable_fas t1
      = ({ l with state := State.Waiting, delay_timer := t1 },
          triggerAll ApiEvent.StartFas) := by
    simp [Looper.enable_fas, h]
  refine ⟨by rw [e1], by rw [e1], by rw [e1], by rw [e1], ?_, ?_⟩
  · intro hd
    rw [e1]
    simp [Looper.enable_fas, hd, Controller.init_game]
  · intro hd
    rw [e1]
    simp [Looper.enable_fas, hd]

/-- A concrete looper in `NotWorking` with no buffer. -/
def sampleLooper : Looper :=
  { state := State.NotWorking,
    delay_timer := 0,
    buffer := none,
    topapp_pids := [1],
    process_names := [(1, "pkg.a")],
    config := [("pkg.a", 60)],
    controller := sampleController,
    cleaner_cleaned := false }

/-- Witness for C3 at the concrete looper: activation at instant 0, second
calls at 4 s (past the delay) and at 2 s (inside the delay). -/
theorem c3_enable_fas_settling_witness :
    (sampleLooper.enable_fas 0).1.state = State.Waiting ∧
    (sampleLooper.enable_fas 0).1.delay_timer = 0 ∧
    (sampleLooper.enable_fas 0).2 = triggerAll ApiEvent.StartFas ∧
    (sampleLooper.enable_fas 0).1.controller = sampleLooper.controller ∧
    ((sampleLooper.enable_fas 0).1.enable_fas 4000000000).1.state = State.Working ∧
    ((sampleLooper.enable_fas 0).1.enable_fas 4000000000).1.controller.policy_freq
        = sampleLooper.controller.max_freq ∧
    ((sampleLooper.enable_fas 0).1.enable_fas 2000000000).1.state = State.Waiting ∧
    ((sampleLooper.enable_fas 0).1.enable_fas 2000000000).1.controller
        = sampleLooper.controller :=
  ⟨(c3_enable_fas_settling sampleLooper 0 4000000000 rfl).1,
   (c3_enable_fas_settling sampleLooper 0 4000000000 rfl).2.1,
   (c3_enable_fas_settling sampleLooper 0 4000000000 rfl).2.2.1,
   (c3_enable_fas_settling sampleLooper 0 4000000000 rfl).2.2.2.1,
   ((c3_enable_fas_settling sampleLooper 0 4000000000 rfl).2.2.2.2.1 (by decide)).1,
   ((c3_enable_fas_settling sampleLooper 0 4000000000 rfl).2.2.2.2.1 (by decide)).2,
   ((c3_enable_fas_settling sampleLooper 0 2000000000 rfl).2.2.2.2.2 (by decide)).1,
   ((c3_enable_fas_settling sampleLooper 0 2000000000 rfl).2.2.2.2.2 (by decide)).2⟩

/-- The buffer installed in the counterexample looper: it belongs to
process 1. -/
def cex4Buffer : Buffer :=
  { target_fps := 60,
    pid := 1,
    pkg := "pkg.a",
    state := BufferState.Unusable,
    frametimes := [] }

/-- A looper whose installed buffer belongs to process 1 while process 2 is
also in the foreground set and has a configured target fps. -/
def cex4Looper : Looper :=
  { state := State.Working,
    delay_timer := 0,
    buffer := some cex4Buffer,
    topapp_pids := [1, 2],
    process_names := [(1, "pkg.a"), (2, "pkg.b")],
    config := [("pkg.a", 60), ("pkg.b", 120)],
    controller := sampleController,
    cleaner_cleaned := true }

/-- C4 counterexample: a foreground, nonzero-duration event from process 2
arrives while the active buffer belongs to process 1 and process 2 has a
configured target fps; the code pushes the sample into process 1's buffer,
fires no load-notifications and installs no new buffer — the claim requires
a fresh buffer for process 2 and `LoadFas` notifications. -/
theorem c4_counterexample :
    (2 : Int) ∈ cex4Looper.topapp_pids ∧
    (1000000 : Nat) ≠ 0 ∧
    cex4Looper.process_names.lookup 2 = some "pkg.b" ∧
    cex4Looper.config.lookup "pkg.b" = some 120 ∧
    (∃ b, cex4Looper.buffer = some b ∧ b.pid ≠ 2) ∧
    (cex4Looper.buffer_update ⟨2, 1000000⟩).1.buffer
        = some (cex4Buffer.push_frametime 1000000) ∧
    (∀ b, (cex4Looper.buffer_update ⟨2, 1000000⟩).1.buffer = some b → b.pid = 1) ∧
    (cex4Looper.buffer_update ⟨2, 1000000⟩).2.2 = [] := by
  decide

/-- C4 (amended): for every foreground, nonzero-duration frame event, if
any buffer is installed — regardless of which process it belongs to — the
sample is pushed to that buffer and its usability state returned, with no
notifications; a new buffer (created `Unusable`, first sample pushed,
`LoadFas` fired, installed as active, `Unusable` returned) arises only when
no buffer is installed, the process name resolves and a target fps is
configured. -/
theorem c4_buffer_update_push (l : Looper) (d : FasData)
    (h1 : d.pid ∈ l.topapp_pids) (h2 : d.frametime ≠ 0) :
    (∀ b, l.buffer = some b →
      (l.buffer_update d).1.buffer = some (b.push_frametime d.frametime) ∧
      (l.buffer_update d).2.1 = some (b.push_frametime d.frametime).state ∧
      (l.buffer_update d).2.2 = []) ∧
    (∀ pkg tfps, l.buffer = none →
      l.process_names.lookup d.pid = some pkg →
      l.config.lookup pkg = some tfps →
      (l.buffer_update d).1.buffer
          = some ((Buffer.new tfps d.pid pkg).push_frametime d.frametime) ∧
      (Buffer.new tfps d.pid pkg).state = BufferState.Unusable ∧
      (l.buffer_update d).2.1 = some BufferState.Unusable ∧
      (l.buffer_update d).2.2 = triggerAll (ApiEvent.LoadFas d.pid pkg)) := by
  have hg : ¬ (d.pid ∉ l.topapp_pids ∨ d.frametime = 0) := by
    push_neg
    exact ⟨h1, h2⟩
  constructor
  · intro b hb
    simp [Looper.buffer_update, hg, hb]
  · intro pkg tfps hb hn hc
    simp [Looper.buffer_update, hg, hb, hn, hc, Buffer.new]

/-- Witness for C4 (amended): the push-to-existing-buffer case at the
counterexample looper, and the fresh-buffer case at the same looper with
the buffer removed. -/
theorem c4_buffer_update_push_witness :
    ((cex4Looper.buffer_update ⟨2, 1000000⟩).1.buffer
        = some (cex4Buffer.push_frametime 1000000) ∧
      (cex4Looper.buffer_update ⟨2, 1000000⟩).2.1
          = some (cex4Buffer.push_frametime 1000000).state ∧
      (cex4Looper.buffer_update ⟨2, 1000000⟩).2.2 = []) ∧
    (({ cex4Looper with buffer := none }.buffer_update ⟨2, 1000000⟩).1.buffer
        = some ((Buffer.new 120 2 "pkg.b").push_frametime 1000000) ∧
      (Buffer.new 120 2 "pkg.b").state = BufferState.Unusable ∧
      ({ cex4Looper with buffer := none }.buffer_update ⟨2, 1000000⟩).2.1
          = some BufferState.Unusable ∧
      ({ cex4Looper with buffer := none }.buffer_update ⟨2, 1000000⟩).2.2
          = triggerAll (ApiEvent.LoadFas 2 "pkg.b")) :=
  ⟨(c4_buffer_update_push cex4Looper ⟨2, 1000000⟩ (by decide) (by decide)).1
      cex4Buffer rfl,
   (c4_buffer_update_push { cex4Looper with buffer := none } ⟨2, 1000000⟩
      (by decide) (by decide)).2 "pkg.b" 120 rfl (by decide) (by decide)⟩

/-- C10: after every `retain_topapp` call, from every prior state, the
lifecycle state is consistent with the buffer: no buffer implies
`NotWorking`, and an installed buffer implies `Waiting` or `Working`. -/
theorem c10_retain_topapp_consistency (l : Looper) (now : Nat) :
    ((l.retain_topapp now).1.buffer = none →
      (l.retain_topapp now).1.state = State.NotWorking) ∧
    (∀ b, (l.retain_topapp now).1.buffer = some b →
      (l.retain_topapp now).1.state = State.Waiting ∨
      (l.retain_topapp now).1.state = State.Working) := by
  rcases hb : l.buffer with _ | b
  · have hstep : l.retain_topapp now
        = ((l.disable_fas).1, [] ++ (l.disable_fas).2) := by
      simp [Looper.retain_topapp, hb]
    rw [hstep]
    refine ⟨fun _ => disable_fas_state_eq l, fun b hbb => ?_⟩
    rw [disable_fas_buffer_eq, hb] at hbb
    exact absurd hbb (by simp)
  · by_cases hp : b.pid ∈ l.topapp_pids
    · have hstep : l.retain_topapp now
          = ((l.enable_fas now).1, [] ++ (l.enable_fas now).2) := by
        simp [Looper.retain_topapp, hb, hp]
      rw [hstep]
      refine ⟨fun hc => ?_, fun b2 _ => enable_fas_state_cases l now⟩
      rw [enable_fas_buffer_eq, hb] at hc
      exact absurd hc (by simp)
    · have hstep : l.retain_topapp now
          = (({ l with buffer := none }.disable_fas).1,
              triggerAll (ApiEvent.UnloadFas b.pid b.pkg)
                ++ ({ l with buffer := none }.disable_fas).2) := by
        simp [Looper.retain_topapp, hb, hp]
      rw [hstep]
      refine ⟨fun _ => disable_fas_state_eq _, fun b2 hbb => ?_⟩
      rw [disable_fas_buffer_eq] at hbb
      exact absurd hbb (by simp)

/-- Witness for C10 at concrete loopers: one with no buffer from
`Working`, one with a foreground buffer from `NotWorking`. -/
theorem c10_retain_topapp_consistency_witness :
    (sampleLooper.retain_topapp 0).1.state = State.NotWorking ∧
    ((cex4Looper.retain_topapp 0).1.state = State.Waiting ∨
      (cex4Looper.retain_topapp 0).1.state = State.Working) :=
  ⟨(c10_retain_topapp_consistency sampleLooper 0).1 (by decide),
   (c10_retain_topapp_consistency cex4Looper 0).2 cex4Buffer (by decide)⟩

end FasRs
